import Mathlib

/-!
# Verification of the IMDb Top-1000 analysis pipeline

Shallow embedding of `scripts/analysis_script.py`: the Acquirer
(`download_csv`), the Loader (`build_database`) and the Reporter
(`run_queries`), together with the eleven fixed SQL queries the Reporter
executes against the SQLite store.

Modelling conventions:
* CSV rows become a `Movie` structure; numeric SQL values are `ℚ` (SQLite
  REAL arithmetic on the dataset values is exact for everything the claims
  touch), the `Rank` and `Year` columns are `ℤ` (pandas int64), and nullable
  columns are `Option`-valued.
* SQLite integer division truncates toward zero, so the `Year/10` in query 10
  is `Int.tdiv`.
* `GROUP BY` is modelled as grouping by first appearance of the key and
  `ORDER BY` as a stable sort (`List.insertionSort`); SQLite fixes no order
  for ties, so any definite order is a faithful refinement.
* pandas `Series.unique` returns the distinct values in order of first
  appearance; it is modelled by `uniqueList`.
* The filesystem is an association list of (path, contents), newest write
  first; `write` shadows older entries, which is overwrite semantics.
-/

/-- The distinct elements of `l` that are not in `seen`, in order of first
appearance in `l`.  Structural-recursive worker for `uniqueList`. -/
def uniqueAux [DecidableEq α] : List α → List α → List α
  | [], _ => []
  | x :: xs, seen =>
      if x ∈ seen then uniqueAux xs seen
      else x :: uniqueAux xs (x :: seen)

/-- pandas `Series.unique`: the distinct values of `l` in order of first
appearance. -/
def uniqueList [DecidableEq α] (l : List α) : List α :=
  uniqueAux l []

theorem mem_uniqueAux [DecidableEq α] (l seen : List α) (a : α) :
    a ∈ uniqueAux l seen ↔ a ∈ l ∧ a ∉ seen := by
  induction l generalizing seen with
  | nil => simp [uniqueAux]
  | cons x xs ih =>
      by_cases hx : x ∈ seen
      · simp only [uniqueAux, if_pos hx, ih, List.mem_cons]
        constructor
        · rintro ⟨h1, h2⟩; exact ⟨Or.inr h1, h2⟩
        · rintro ⟨h1 | h1, h2⟩
          · subst h1; exact absurd hx h2
          · exact ⟨h1, h2⟩
      · simp only [uniqueAux, if_neg hx, List.mem_cons, ih]
        constructor
        · rintro (h | ⟨h1, h2⟩)
          · subst h; exact ⟨Or.inl rfl, hx⟩
          · exact ⟨Or.inr h1, fun hs => h2 (Or.inr hs)⟩
        · rintro ⟨h1 | h1, h2⟩
          · exact Or.inl h1
          · by_cases hax : a = x
            · exact Or.inl hax
            · exact Or.inr ⟨h1, fun hs => hs.elim hax h2⟩

theorem mem_uniqueList [DecidableEq α] (l : List α) (a : α) :
    a ∈ uniqueList l ↔ a ∈ l := by
  simp [uniqueList, mem_uniqueAux]

theorem nodup_uniqueAux [DecidableEq α] (l seen : List α) :
    (uniqueAux l seen).Nodup := by
  induction l generalizing seen with
  | nil => simp [uniqueAux]
  | cons x xs ih =>
      by_cases hx : x ∈ seen
      · simpa [uniqueAux, if_pos hx] using ih seen
      · rw [uniqueAux, if_neg hx]
        refine List.Nodup.cons ?_ (ih (x :: seen))
        intro hmem
        exact ((mem_uniqueAux _ _ _).1 hmem).2 (List.mem_cons_self _ _)

theorem nodup_uniqueList [DecidableEq α] (l : List α) :
    (uniqueList l).Nodup :=
  nodup_uniqueAux l []

theorem toFinset_uniqueList [DecidableEq α] (l : List α) :
    (uniqueList l).toFinset = l.toFinset := by
  ext a
  simp [List.mem_toFinset, mem_uniqueList]

theorem length_uniqueList_eq_card [DecidableEq α] (l : List α) :
    (uniqueList l).length = l.toFinset.card := by
  rw [← toFinset_uniqueList]
  exact (List.toFinset_card_of_nodup (nodup_uniqueList l)).symm

/-- Elements produced by `uniqueAux` appear in strictly increasing order of
their first occurrence in the scanned list. -/
theorem pairwise_idxOf_uniqueAux [DecidableEq α] (l seen : List α) :
    (uniqueAux l seen).Pairwise (fun a b => l.indexOf a < l.indexOf b) := by
  induction l generalizing seen with
  | nil => simp [uniqueAux]
  | cons x xs ih =>
      have transfer : ∀ s : List α, x ∈ s →
          (uniqueAux xs s).Pairwise
            (fun a b => (x :: xs).indexOf a < (x :: xs).indexOf b) := by
        intro s hxs
        refine (ih s).imp_of_mem ?_
        intro a b ha hb hab
        have haxs := (mem_uniqueAux _ _ _).1 ha
        have hbxs := (mem_uniqueAux _ _ _).1 hb
        have hax : a ≠ x := fun h => haxs.2 (h ▸ hxs)
        have hbx : b ≠ x := fun h => hbxs.2 (h ▸ hxs)
        rw [List.indexOf_cons_ne _ (Ne.symm hax), List.indexOf_cons_ne _ (Ne.symm hbx)]
        exact Nat.succ_lt_succ hab
      by_cases hx : x ∈ seen
      · rw [uniqueAux, if_pos hx]
        exact transfer seen hx
      · rw [uniqueAux, if_neg hx]
        refine List.Pairwise.cons ?_ (transfer (x :: seen) (List.mem_cons_self _ _))
        intro b hb
        have hbxs := (mem_uniqueAux _ _ _).1 hb
        have hbx : b ≠ x := fun h => hbxs.2 (h ▸ List.mem_cons_self _ _)
        rw [List.indexOf_cons_self, List.indexOf_cons_ne _ (Ne.symm hbx)]
        exact Nat.succ_pos _

theorem pairwise_idxOf_uniqueList [DecidableEq α] (l : List α) :
    (uniqueList l).Pairwise (fun a b => l.indexOf a < l.indexOf b) :=
  pairwise_idxOf_uniqueAux l []

/-- One parsed row of `IMDB-Movie-Data.csv`, as loaded by
`pd.read_csv` in `build_database`.  `genre` and the numeric `runtime`
and `revenue` columns are nullable. -/
structure Movie where
  rank : ℤ
  title : String
  genre : Option String
  director : String
  year : ℤ
  runtime : Option ℚ
  rating : ℚ
  revenue : Option ℚ
deriving DecidableEq, Repr

/-- Python `str(row["Genre"])`: a missing (NaN) genre prints as the literal
string `"nan"`. -/
def strGenre : Option String → String
  | none => "nan"
  | some s => s

/-- Worker for `pySplit`: scan the characters, cutting at each separator. -/
def splitCharAux (sep : Char) : List Char → List Char → List String
  | [], acc => [String.mk acc.reverse]
  | c :: cs, acc =>
      if c = sep then String.mk acc.reverse :: splitCharAux sep cs []
      else splitCharAux sep cs (c :: acc)

/-- Python `s.split(sep)` for a one-character separator: the pieces of `s`
between occurrences of `sep` (always at least one piece). -/
def pySplit (s : String) (sep : Char) : List String :=
  splitCharAux sep s.data []

/-- Python `s.strip()`: remove leading and trailing whitespace. -/
def pyStrip (s : String) : String :=
  String.mk
    (((s.data.dropWhile Char.isWhitespace).reverse.dropWhile
        Char.isWhitespace).reverse)

/-- The genre tokens the Loader derives for one movie:
`[g.strip() for g in str(row["Genre"]).split(",")]`. -/
def genreTokens (m : Movie) : List String :=
  (pySplit (strGenre m.genre) ',').map pyStrip

/-- The rows the Loader appends to `records` for one movie: one
`{"Rank": row["Rank"], "Genre": g}` per token. -/
def genreRows (m : Movie) : List (ℤ × String) :=
  (genreTokens m).map (fun g => (m.rank, g))

/-- The `movie_genres` table built by `build_database`: the genre rows of all
movies, in input row order then split order. -/
def movieGenres (movies : List Movie) : List (ℤ × String) :=
  movies.flatMap genreRows

/-- The `directors` table: `movies["Director"].unique()` paired with
`director_id = index + 1`.  A row is `(Director, director_id)`. -/
def directorsTable (movies : List Movie) : List (String × ℕ) :=
  (uniqueList (movies.map (fun m => m.director))).enum.map
    (fun p => (p.2, p.1 + 1))

/-- The lookup performed by
`movies[["Rank","Director"]].merge(unique_directors, on="Director", how="left")`:
the surrogate id of the first `directors` row whose name matches, if any. -/
def directorIdOf (movies : List Movie) (d : String) : Option ℕ :=
  ((directorsTable movies).find? (fun p => p.1 = d)).map (fun p => p.2)

/-- The `movie_directors` table: each movie's `Rank` joined to its director's
surrogate id (`how="left"`, so an unmatched name would give a null). -/
def movieDirectors (movies : List Movie) : List (ℤ × Option ℕ) :=
  movies.map (fun m => (m.rank, directorIdOf movies m.director))

/-- The SQLite store produced by `build_database`: the four tables, each
written with `if_exists="replace"`. -/
structure Store where
  movies : List Movie
  movie_genres : List (ℤ × String)
  directors : List (String × ℕ)
  movie_directors : List (ℤ × Option ℕ)
deriving DecidableEq, Repr

/-- `build_database csv_path db_path`: reads the input rows and replaces all
four tables of whatever store was at `db_path` before (`if_exists="replace"`
discards the previous contents, so the result does not depend on `prev`). -/
def build_database (input : List Movie) (_prev : Store) : Store :=
  { movies := input
    movie_genres := movieGenres input
    directors := directorsTable input
    movie_directors := movieDirectors input }

theorem length_flatMap_eq_sum (l : List α) (f : α → List β) :
    (l.flatMap f).length = (l.map (fun a => (f a).length)).sum := by
  induction l with
  | nil => rfl
  | cons x xs ih => simp [List.flatMap_cons, ih]

/-- In a table whose key column is duplicate-free, `find?` on a row's own key
returns exactly that row. -/
theorem find?_key_of_nodup {α β : Type} [DecidableEq α]
    (t : List (α × β)) (hnd : (t.map (fun p => p.1)).Nodup)
    (p : α × β) (hp : p ∈ t) : t.find? (fun q => q.1 = p.1) = some p := by
  induction t with
  | nil => cases hp
  | cons q ts ih =>
      rcases List.mem_cons.1 hp with h | h
      · subst h
        simp [List.find?]
      · have hnd2 : q.1 ∉ ts.map (fun p => p.1) ∧ (ts.map (fun p => p.1)).Nodup := by
          rw [List.map_cons] at hnd
          exact List.nodup_cons.1 hnd
        have hne : ¬(q.1 = p.1) := by
          intro he
          exact hnd2.1 (he ▸ List.mem_map.2 ⟨p, h, rfl⟩)
        rw [List.find?_cons_of_neg _ (by simpa using hne)]
        exact ih hnd2.2 h

/-- C3: the `movie_genres` row count is the sum over all movies of the number
of comma-separated tokens of the (stringified) genre field, and every row
pairs the movie's `Rank` with the whitespace-trimmed form of one of its
comma-separated genre pieces. -/
theorem movie_genres_rows_characterised (movies : List Movie) :
    (movieGenres movies).length
        = (movies.map (fun m => (genreTokens m).length)).sum
      ∧ ∀ p ∈ movieGenres movies, ∃ m ∈ movies, p.1 = m.rank ∧
          ∃ piece ∈ pySplit (strGenre m.genre) ',', p.2 = pyStrip piece := by
  constructor
  · rw [movieGenres, length_flatMap_eq_sum]
    simp [genreRows]
  · intro p hp
    rcases List.mem_flatMap.1 hp with ⟨m, hm, hrow⟩
    rcases List.mem_map.1 hrow with ⟨g, hg, hpe⟩
    rcases List.mem_map.1 hg with ⟨piece, hpiece, hgt⟩
    exact ⟨m, hm, by rw [← hpe], piece, hpiece, by rw [← hpe, ← hgt]⟩

theorem genreTokens_of_none (m : Movie) (h : m.genre = none) :
    genreTokens m = ["nan"] := by
  rw [genreTokens, h]
  rfl

/-- Witness for C3 at a concrete two-movie dataset. -/
theorem movie_genres_rows_characterised_witness :
    movieGenres
        [{ rank := 1, title := "A", genre := some ("Drama, War"), director := "X",
           year := 2000, runtime := some 120, rating := 8, revenue := some 50 }]
      = [(1, "Drama"), (1, "War")] ∧
    (movieGenres
        [{ rank := 1, title := "A", genre := some ("Drama, War"), director := "X",
           year := 2000, runtime := some 120, rating := 8, revenue := some 50 }]).length
      = 2 := by
  refine ⟨by decide, ?_⟩
  have h := (movie_genres_rows_characterised
    [{ rank := 1, title := "A", genre := some ("Drama, War"), director := "X",
       year := 2000, runtime := some 120, rating := 8, revenue := some 50 }]).1
  rw [h]; decide

/-- C9: a movie whose genre field is missing is not skipped: `str()` turns the
NaN into the literal string `"nan"`, so the Loader emits exactly one
genre-association row, pairing the movie's `Rank` with `"nan"`. -/
theorem nan_genre_single_row (m : Movie) (h : m.genre = none) :
    genreRows m = [(m.rank, "nan")] := by
  rw [genreRows, genreTokens_of_none m h]
  rfl

/-- Witness for C9: a concrete movie with a missing genre field. -/
theorem nan_genre_single_row_witness :
    genreRows
        { rank := 7, title := "NoGenre", genre := none, director := "Y",
          year := 1999, runtime := none, rating := 5, revenue := none }
      = [(7, "nan")] :=
  nan_genre_single_row
    { rank := 7, title := "NoGenre", genre := none, director := "Y",
      year := 1999, runtime := none, rating := 5, revenue := none } rfl

theorem directorsTable_map_fst (movies : List Movie) :
    (directorsTable movies).map (fun p => p.1)
      = uniqueList (movies.map (fun m => m.director)) := by
  rw [directorsTable, List.map_map]
  have : ((fun p : String × ℕ => p.1) ∘ fun p : ℕ × String => (p.2, p.1 + 1))
      = Prod.snd := rfl
  rw [this, List.enum_map_snd]

theorem directorsTable_map_snd (movies : List Movie) :
    (directorsTable movies).map (fun p => p.2)
      = List.range' 1 (directorsTable movies).length := by
  rw [directorsTable, List.map_map, List.length_map, List.enum_length]
  have h1 : ((fun p : String × ℕ => p.2) ∘ fun p : ℕ × String => (p.2, p.1 + 1))
      = (fun p : ℕ × String => p.1 + 1) := rfl
  rw [h1]
  have h2 : (fun p : ℕ × String => p.1 + 1)
      = (fun n : ℕ => n + 1) ∘ Prod.fst := rfl
  rw [h2, ← List.map_map, List.enum_map_fst, List.range'_eq_map_range]
  exact List.map_congr_left (fun n _ => Nat.add_comm n 1)

/-- C4: the `directors` table lists the distinct director names in order of
first appearance in the movies table (strictly increasing first-occurrence
index, no duplicates, covering exactly the names that occur), and the k-th
row receives surrogate id k, i.e. the id column is `1, 2, …, n`. -/
theorem directors_first_seen_order (movies : List Movie) :
    (directorsTable movies).map (fun p => p.2)
        = List.range' 1 (directorsTable movies).length
      ∧ ((directorsTable movies).map (fun p => p.1)).Nodup
      ∧ (∀ d, d ∈ (directorsTable movies).map (fun p => p.1)
            ↔ d ∈ movies.map (fun m => m.director))
      ∧ ((directorsTable movies).map (fun p => p.1)).Pairwise
          (fun a b => (movies.map (fun m => m.director)).indexOf a
              < (movies.map (fun m => m.director)).indexOf b) := by
  refine ⟨directorsTable_map_snd movies, ?_, ?_, ?_⟩
  · rw [directorsTable_map_fst]
    exact nodup_uniqueList _
  · intro d
    rw [directorsTable_map_fst]
    exact mem_uniqueList _ d
  · rw [directorsTable_map_fst]
    exact pairwise_idxOf_uniqueList _

/-- Witness for C4 on a concrete dataset with a repeated director. -/
theorem directors_first_seen_order_witness :
    directorsTable
        [{ rank := 1, title := "A", genre := some ("Drama"), director := "X",
           year := 2000, runtime := some 120, rating := 8, revenue := some 50 },
         { rank := 2, title := "B", genre := some ("War"), director := "Y",
           year := 2001, runtime := some 90, rating := 7, revenue := none },
         { rank := 3, title := "C", genre := some ("Drama"), director := "X",
           year := 2002, runtime := some 100, rating := 6, revenue := none }]
      = [("X", 1), ("Y", 2)] ∧
    ("Y" ∈ (directorsTable
        [{ rank := 1, title := "A", genre := some ("Drama"), director := "X",
           year := 2000, runtime := some 120, rating := 8, revenue := some 50 },
         { rank := 2, title := "B", genre := some ("War"), director := "Y",
           year := 2001, runtime := some 90, rating := 7, revenue := none },
         { rank := 3, title := "C", genre := some ("Drama"), director := "X",
           year := 2002, runtime := some 100, rating := 6, revenue := none }]).map
        (fun p => p.1)) := by
  refine ⟨by decide, ?_⟩
  refine ((directors_first_seen_order _).2.2.1 ("Y")).2 ?_
  decide

/-- C5: the `directors` table has exactly one row per distinct director name
of the movies table, and every surrogate id it assigns is referenced by at
least one row of `movie_directors`. -/
theorem directors_complete_and_referenced (movies : List Movie) :
    (directorsTable movies).length
        = (movies.map (fun m => m.director)).toFinset.card
      ∧ ∀ p ∈ directorsTable movies,
          ∃ q ∈ movieDirectors movies, q.2 = some p.2 := by
  constructor
  · rw [directorsTable, List.length_map, List.enum_length]
    exact length_uniqueList_eq_card _
  · intro p hp
    have hname : p.1 ∈ uniqueList (movies.map (fun m => m.director)) := by
      rw [← directorsTable_map_fst]
      exact List.mem_map.2 ⟨p, hp, rfl⟩
    have hmem : p.1 ∈ movies.map (fun m => m.director) :=
      (mem_uniqueList _ _).1 hname
    rcases List.mem_map.1 hmem with ⟨m, hm, hd⟩
    refine ⟨(m.rank, directorIdOf movies m.director),
      List.mem_map.2 ⟨m, hm, rfl⟩, ?_⟩
    have hnd : ((directorsTable movies).map (fun p => p.1)).Nodup := by
      rw [directorsTable_map_fst]; exact nodup_uniqueList _
    have hfind := find?_key_of_nodup (directorsTable movies) hnd p hp
    rw [directorIdOf, hd, hfind]
    rfl

/-- Witness for C5: the director of a one-movie dataset is referenced. -/
theorem directors_complete_and_referenced_witness :
    ∃ q ∈ movieDirectors
        [{ rank := 1, title := "A", genre := some ("Drama"), director := "X",
           year := 2000, runtime := some 120, rating := 8, revenue := some 50 }],
      q.2 = some ("X", 1).2 :=
  (directors_complete_and_referenced
      [{ rank := 1, title := "A", genre := some ("Drama"), director := "X",
         year := 2000, runtime := some 120, rating := 8, revenue := some 50 }]).2
    ("X", 1) (by decide)

/-- An empty SQLite database file: no tables yet. -/
def emptyStore : Store :=
  { movies := [], movie_genres := [], directors := [], movie_directors := [] }

/-- SQL `AVG` over the (already null-filtered) values of a group. -/
def listAvg (l : List ℚ) : ℚ := l.sum / l.length

/-- SQLite `ROUND(x, 2)`: round to 2 decimal places, halves away from zero. -/
def sqlRound2 (q : ℚ) : ℚ :=
  if 0 ≤ q then ((⌊q * 100 + 1 / 2⌋ : ℤ) : ℚ) / 100
  else -(((⌊-(q * 100) + 1 / 2⌋ : ℤ) : ℚ) / 100)

/-- SQL `GROUP BY`: one group per distinct key, keys in first-appearance
order (SQLite fixes no inter-group order; the final `ORDER BY` re-sorts),
each group keeping the row order of its source rows. -/
def groupBy [DecidableEq κ] (key : α → κ) (l : List α) : List (κ × List α) :=
  (uniqueList (l.map key)).map (fun k => (k, l.filter (fun a => key a = k)))

/-- SQLite ordering used for `ORDER BY x DESC` on a nullable column:
`a` may precede `b` when `b`'s value is below `a`'s, with NULL below
every value (hence last in descending order). -/
def nullLastGe : Option ℚ → Option ℚ → Prop
  | none, none => True
  | some _, none => True
  | none, some _ => False
  | some a, some b => b ≤ a

instance nullLastGe.decidableRel : DecidableRel nullLastGe
  | none, none => isTrue trivial
  | some _, none => isTrue trivial
  | none, some _ => isFalse (fun h => h)
  | some a, some b => inferInstanceAs (Decidable (b ≤ a))

/-- Query 01: `Title, Year, Rating` of the top 10 movies by rating. -/
def query01 (st : Store) : List (String × ℤ × ℚ) :=
  ((List.insertionSort (fun a b : Movie => b.rating ≤ a.rating)
      st.movies).take 10).map (fun m => (m.title, m.year, m.rating))

/-- The joined `(Genre, Rating)` rows of queries 02:
`movies m JOIN movie_genres mg ON mg.Rank = m.Rank`. -/
def q2Rows (st : Store) : List (String × ℚ) :=
  st.movies.flatMap (fun m =>
    (st.movie_genres.filter (fun mg => mg.1 = m.rank)).map
      (fun mg => (mg.2, m.rating)))

/-- Query 02: average rating per genre, descending by the rounded average. -/
def query02 (st : Store) : List (String × ℚ) :=
  List.insertionSort (fun a b : String × ℚ => b.2 ≤ a.2)
    ((groupBy (fun r : String × ℚ => r.1) (q2Rows st)).map
      (fun g => (g.1, sqlRound2 (listAvg (g.2.map (fun r => r.2))))))

/-- Query 03: movie count per director, descending, top 10. -/
def query03 (st : Store) : List (String × ℕ) :=
  (List.insertionSort (fun a b : String × ℕ => b.2 ≤ a.2)
    ((groupBy (fun m : Movie => m.director) st.movies).map
      (fun g => (g.1, g.2.length)))).take 10

/-- Query 04: movie count per year, year descending. -/
def query04 (st : Store) : List (ℤ × ℕ) :=
  List.insertionSort (fun a b : ℤ × ℕ => b.1 ≤ a.1)
    ((groupBy (fun m : Movie => m.year) st.movies).map
      (fun g => (g.1, g.2.length)))

/-- Query 05: per year, the `ROW_NUMBER() = 1` movie when the partition is
ordered by rating descending; result ordered by year descending. -/
def query05 (st : Store) : List (ℤ × String × ℚ) :=
  List.insertionSort (fun a b : ℤ × String × ℚ => b.1 ≤ a.1)
    ((groupBy (fun m : Movie => m.year) st.movies).filterMap
      (fun g =>
        (List.insertionSort (fun a b : Movie => b.rating ≤ a.rating)
            g.2).head?.map (fun m => (g.1, m.title, m.rating))))

/-- Query 06: per year the first 5 movies by revenue (null revenues filtered
out by the `WHERE`), ordered by year descending then row number. -/
def query06 (st : Store) : List (ℤ × String × Option ℚ) :=
  (List.insertionSort
    (fun a b : ℤ × List (ℤ × String × Option ℚ) => b.1 ≤ a.1)
    ((groupBy (fun m : Movie => m.year)
        (st.movies.filter (fun m => m.revenue.isSome))).map
      (fun g => (g.1,
        ((List.insertionSort
            (fun a b : Movie => b.revenue.getD 0 ≤ a.revenue.getD 0)
            g.2).take 5).map
          (fun m => (g.1, m.title, m.revenue)))))).flatMap (fun g => g.2)

/-- Query 07: among directors with at least 2 movies of non-null revenue,
the rounded average revenue and movie count, descending, top 10. -/
def query07 (st : Store) : List (String × ℚ × ℕ) :=
  (List.insertionSort (fun a b : String × ℚ × ℕ => b.2.1 ≤ a.2.1)
    (((groupBy (fun m : Movie => m.director)
          (st.movies.filter (fun m => m.revenue.isSome))).filter
        (fun g => 2 ≤ g.2.length)).map
      (fun g => (g.1, sqlRound2 (listAvg (g.2.filterMap (fun m => m.revenue))),
        g.2.length)))).take 10

/-- Query 08: movie count per genre over `movie_genres`, descending, top 5. -/
def query08 (st : Store) : List (String × ℕ) :=
  (List.insertionSort (fun a b : String × ℕ => b.2 ≤ a.2)
    ((groupBy (fun r : ℤ × String => r.2) st.movie_genres).map
      (fun g => (g.1, g.2.length)))).take 5

/-- Query 09: rounded average runtime per genre (SQL `AVG` skips nulls and is
NULL on an all-null group), descending with NULLs last. -/
def query09 (st : Store) : List (String × Option ℚ) :=
  List.insertionSort (fun a b : String × Option ℚ => nullLastGe a.2 b.2)
    ((groupBy (fun r : String × Option ℚ => r.1)
        (st.movies.flatMap (fun m =>
          (st.movie_genres.filter (fun mg => mg.1 = m.rank)).map
            (fun mg => (mg.2, m.runtime))))).map
      (fun g => (g.1,
        match g.2.filterMap (fun r => r.2) with
        | [] => none
        | vs => some (sqlRound2 (listAvg vs)))))

/-- The `(Year/10)*10` decade key of query 10; SQLite integer division
truncates toward zero. -/
def decadeOf (m : Movie) : ℤ := (Int.tdiv m.year 10) * 10

/-- Query 10: rounded average rating and movie count per decade, ascending. -/
def query10 (st : Store) : List (ℤ × ℚ × ℕ) :=
  List.insertionSort (fun a b : ℤ × ℚ × ℕ => a.1 ≤ b.1)
    ((groupBy decadeOf st.movies).map
      (fun g => (g.1, sqlRound2 (listAvg (g.2.map (fun m => m.rating))),
        g.2.length)))

/-- Query 11: per genre the first 3 joined movies by rating, genres
ascending then row number. -/
def query11 (st : Store) : List (String × String × ℚ) :=
  (List.insertionSort
    (fun a b : String × List (String × String × ℚ) => a.1 ≤ b.1)
    ((groupBy (fun r : String × Movie => r.1)
        (st.movie_genres.flatMap (fun mg =>
          (st.movies.filter (fun m => m.rank = mg.1)).map
            (fun m => (mg.2, m))))).map
      (fun g => (g.1,
        ((List.insertionSort
            (fun a b : String × Movie => b.2.rating ≤ a.2.rating)
            g.2).take 3).map
          (fun r => (g.1, r.2.title, r.2.rating)))))).flatMap (fun g => g.2)

/-- The two-movie toy dataset of the spec:
`(1, "A", "Drama, War", "X", 2000, 8.0, 120, 50)` and
`(2, "B", "Drama", "X", 2001, 7.0, 90, null)`. -/
def toyMovies : List Movie :=
  [{ rank := 1, title := "A", genre := some ("Drama, War"), director := "X",
     year := 2000, runtime := some 120, rating := 8, revenue := some 50 },
   { rank := 2, title := "B", genre := some ("Drama"), director := "X",
     year := 2001, runtime := some 90, rating := 7, revenue := none }]

/-- C2: on the toy dataset, query 02 returns War with average 8.0 before
Drama with average 7.5, and query 07 returns no rows (director X has only
one movie with non-null revenue, failing the ≥ 2 threshold). -/
theorem toy_dataset_query02_query07 :
    query02 (build_database toyMovies emptyStore)
        = [("War", 8), ("Drama", 15 / 2)]
      ∧ query07 (build_database toyMovies emptyStore) = [] := by
  constructor
  · have e1 : sqlRound2 (listAvg [(8 : ℚ), 7]) = 15 / 2 := by
      norm_num [sqlRound2, listAvg, List.sum_cons, List.sum_nil]
    have e2 : sqlRound2 (listAvg [(8 : ℚ)]) = 8 := by
      norm_num [sqlRound2, listAvg, List.sum_cons, List.sum_nil]
    have hg : groupBy (fun r : String × ℚ => r.1)
        (q2Rows (build_database toyMovies emptyStore))
        = [("Drama", [("Drama", (8 : ℚ)), ("Drama", 7)]),
           ("War", [("War", (8 : ℚ))])] := by
      decide
    rw [query02, hg]
    simp only [List.map_cons, List.map_nil]
    rw [e1, e2]
    norm_num [List.insertionSort, List.orderedInsert]
  · decide

theorem groupBy_map_fst [DecidableEq κ] (key : α → κ) (l : List α) :
    (groupBy key l).map (fun g => g.1) = uniqueList (l.map key) := by
  rw [groupBy, List.map_map]
  have h : ((fun g : κ × List α => g.1) ∘
      fun k => (k, l.filter (fun a => key a = k))) = id := rfl
  rw [h, List.map_id]

/-- The group sizes of a `GROUP BY` add up to the number of grouped rows. -/
theorem sum_group_sizes [DecidableEq κ] (key : α → κ) (l : List α) :
    ((groupBy key l).map (fun g => g.2.length)).sum = l.length := by
  rw [groupBy, List.map_map]
  have hfun : ((fun g : κ × List α => g.2.length) ∘
      fun k => (k, l.filter (fun a => key a = k)))
        = fun k => (l.map key).count k := by
    funext k
    simp only [Function.comp_apply]
    rw [List.count_eq_countP, List.countP_map, ← List.countP_eq_length_filter]
    congr 1
  rw [hfun,
    ← List.sum_toFinset (fun k => (l.map key).count k)
      (nodup_uniqueList (l.map key)),
    toFinset_uniqueList, List.sum_toFinset_count_eq_length, List.length_map]

/-- Counterexample to C6 as stated: a populated store whose dataset has a
single movie with one genre makes query 8 return 1 row, not 5 (the SQL
`LIMIT 5` is an upper bound, not an exact count). -/
theorem query08_not_always_five_rows :
    (query08 (build_database
        [{ rank := 1, title := "A", genre := some ("Drama"), director := "X",
           year := 2000, runtime := some 120, rating := 8, revenue := some 50 }]
        emptyStore)).length = 1
      ∧ ¬((query08 (build_database
        [{ rank := 1, title := "A", genre := some ("Drama"), director := "X",
           year := 2000, runtime := some 120, rating := 8, revenue := some 50 }]
        emptyStore)).length = 5) := by
  constructor
  · decide
  · decide

/-- C6 (amended): query 8 returns `min 5 (number of distinct genres)` rows —
so exactly 5 whenever at least 5 distinct genres occur — and the sum of its
per-genre counts never exceeds the `movie_genres` row count. -/
theorem query08_rows_and_counts (st : Store) :
    (query08 st).length
        = min 5 (uniqueList (st.movie_genres.map (fun r => r.2))).length
      ∧ ((query08 st).map (fun r => r.2)).sum ≤ st.movie_genres.length := by
  constructor
  · rw [query08, List.length_take, (List.perm_insertionSort _ _).length_eq,
      List.length_map, groupBy, List.length_map]
  · have h1 : ((query08 st).map (fun r => r.2)).sum
        ≤ ((List.insertionSort (fun a b : String × ℕ => b.2 ≤ a.2)
            ((groupBy (fun r : ℤ × String => r.2) st.movie_genres).map
              (fun g => (g.1, g.2.length)))).map (fun r => r.2)).sum := by
      refine List.Sublist.sum_le_sum (List.Sublist.map _ (List.take_sublist 5 _))
        (fun a _ => Nat.zero_le a)
    have h2 : ((List.insertionSort (fun a b : String × ℕ => b.2 ≤ a.2)
        ((groupBy (fun r : ℤ × String => r.2) st.movie_genres).map
          (fun g => (g.1, g.2.length)))).map (fun r => r.2)).sum
        = (((groupBy (fun r : ℤ × String => r.2) st.movie_genres).map
            (fun g => (g.1, g.2.length))).map (fun r => r.2)).sum :=
      ((List.perm_insertionSort _ _).map _).sum_eq
    have h3 : (((groupBy (fun r : ℤ × String => r.2) st.movie_genres).map
          (fun g => (g.1, g.2.length))).map (fun r => r.2)).sum
        = st.movie_genres.length := by
      rw [List.map_map]
      exact sum_group_sizes _ _
    exact le_trans h1 (le_of_eq (h2.trans h3))

/-- Counterexample to C7 as stated: SQLite `Year/10` truncates toward zero,
so a store holding a movie with year -5 gets decade 0, while
`floor(-5/10)*10 = -10`. -/
theorem query10_decade_not_floor :
    ((query10 (build_database
        [{ rank := 1, title := "Old", genre := some ("Drama"), director := "X",
           year := -5, runtime := none, rating := 8, revenue := none }]
        emptyStore)).map (fun r => r.1)) = [0]
      ∧ Int.fdiv (-5) 10 * 10 = -10
      ∧ ((0 : ℤ) = -10 → False) := by
  refine ⟨by decide, by decide, by decide⟩

/-- C7 (amended): query 10 groups movies by the decade `(Year/10)*10`
computed with SQLite's truncating integer division — which coincides with
`floor(year/10)*10` whenever the year is nonnegative — and each result row
carries the rounded average rating and the movie count of its decade; every
decade occurring in the store appears, and rows are sorted ascending by
decade. -/
theorem query10_characterised (st : Store) :
    ((query10 st).map (fun r => r.1)).Pairwise (fun a b => a ≤ b)
      ∧ (∀ r ∈ query10 st,
          r = (r.1,
            sqlRound2 (listAvg ((st.movies.filter
              (fun m => decadeOf m = r.1)).map (fun m => m.rating))),
            (st.movies.filter (fun m => decadeOf m = r.1)).length))
      ∧ (∀ m ∈ st.movies, decadeOf m ∈ (query10 st).map (fun r => r.1))
      ∧ (∀ m : Movie, 0 ≤ m.year → decadeOf m = Int.fdiv m.year 10 * 10) := by
  refine ⟨?_, ?_, ?_, ?_⟩
  · haveI htot : IsTotal (ℤ × ℚ × ℕ) (fun a b => a.1 ≤ b.1) :=
      ⟨fun a b => le_total a.1 b.1⟩
    haveI htr : IsTrans (ℤ × ℚ × ℕ) (fun a b => a.1 ≤ b.1) :=
      ⟨fun _ _ _ hab hbc => le_trans hab hbc⟩
    have hs := List.sorted_insertionSort (fun a b : ℤ × ℚ × ℕ => a.1 ≤ b.1)
      ((groupBy decadeOf st.movies).map
        (fun g => (g.1, sqlRound2 (listAvg (g.2.map (fun m => m.rating))),
          g.2.length)))
    rw [query10, List.pairwise_map]
    exact hs
  · intro r hr
    have hr2 : r ∈ (groupBy decadeOf st.movies).map
        (fun g => (g.1, sqlRound2 (listAvg (g.2.map (fun m => m.rating))),
          g.2.length)) :=
      (List.perm_insertionSort _ _).mem_iff.1 hr
    rcases List.mem_map.1 hr2 with ⟨g, hg, he⟩
    rcases List.mem_map.1 hg with ⟨k, _hk, hge⟩
    subst hge
    subst he
    rfl
  · intro m hm
    have hperm : List.Perm ((query10 st).map (fun r => r.1))
        (((groupBy decadeOf st.movies).map
            (fun g => (g.1, sqlRound2 (listAvg (g.2.map (fun m => m.rating))),
              g.2.length))).map (fun r => r.1)) :=
      (List.perm_insertionSort _ _).map _
    rw [hperm.mem_iff, List.map_map]
    have hc : ((fun r : ℤ × ℚ × ℕ => r.1) ∘
        fun g : ℤ × List Movie =>
          (g.1, sqlRound2 (listAvg (g.2.map (fun m => m.rating))), g.2.length))
          = fun g => g.1 := rfl
    rw [hc, groupBy_map_fst, mem_uniqueList]
    exact List.mem_map.2 ⟨m, hm, rfl⟩
  · intro m hy
    rw [decadeOf, Int.tdiv_eq_ediv hy (by decide), Int.fdiv_eq_ediv _ (by decide)]

/-- Witness for C7's amended theorem at a concrete one-movie store. -/
theorem query10_characterised_witness :
    decadeOf
        { rank := 1, title := "A", genre := some ("Drama"), director := "X",
          year := 2000, runtime := some 120, rating := 8, revenue := some 50 }
      ∈ (query10 (build_database
          [{ rank := 1, title := "A", genre := some ("Drama"), director := "X",
             year := 2000, runtime := some 120, rating := 8,
             revenue := some 50 }] emptyStore)).map (fun r => r.1) :=
  (query10_characterised (build_database
      [{ rank := 1, title := "A", genre := some ("Drama"), director := "X",
         year := 2000, runtime := some 120, rating := 8, revenue := some 50 }]
      emptyStore)).2.2.1
    { rank := 1, title := "A", genre := some ("Drama"), director := "X",
      year := 2000, runtime := some 120, rating := 8, revenue := some 50 }
    (by decide)

/-- The on-disk contents of a directory: (file name, file contents) pairs,
newest write first. -/
abbrev Files := List (String × String)

/-- Writing a file: a newer entry shadows any older one with the same name. -/
def write (fs : Files) (name content : String) : Files :=
  (name, content) :: fs

/-- Reading a file: the most recent contents written under `name`, if any
(`none` means the file does not exist). -/
def lookup (fs : Files) (name : String) : Option String :=
  (fs.find? (fun p => p.1 = name)).map (fun p => p.2)

theorem lookup_write_self (fs : Files) (name content : String) :
    lookup (write fs name content) name = some content := by
  simp [lookup, write, List.find?]

theorem lookup_write_ne (fs : Files) (name content other : String)
    (h : other ≠ name) : lookup (write fs name content) other = lookup fs other := by
  rw [lookup, write, List.find?_cons_of_neg _ (by simpa using fun he => h he.symm)]
  rfl

theorem isSome_lookup_write (fs : Files) (name content other : String)
    (h : (lookup fs other).isSome) :
    (lookup (write fs name content) other).isSome := by
  by_cases he : other = name
  · subst he
    rw [lookup_write_self]
    rfl
  · rw [lookup_write_ne fs name content other he]
    exact h

/-- `download_csv`: if the target file exists, do nothing and make no HTTP
request; otherwise perform one GET of the fixed URL (`body` is the response
body) and write it verbatim.  The second component counts HTTP requests. -/
def download_csv (body : String) (path : String) (fs : Files) : Files × ℕ :=
  if (lookup fs path).isSome then (fs, 0)
  else (write fs path body, 1)

/-- C8: when the target file already exists `download_csv` performs no
network request and leaves the filesystem unchanged, and running it a second
time after any first run is such a no-op. -/
theorem download_csv_idempotent (body path : String) (fs : Files) :
    ((lookup fs path).isSome → download_csv body path fs = (fs, 0))
      ∧ download_csv body path (download_csv body path fs).1
          = ((download_csv body path fs).1, 0) := by
  constructor
  · intro h
    rw [download_csv, if_pos h]
  · by_cases h : (lookup fs path).isSome
    · simp only [download_csv, if_pos h]
    · simp only [download_csv, if_neg h]
      rw [if_pos]
      rw [lookup_write_self]
      rfl

/-- Witness for C8: a filesystem that already holds the dataset file. -/
theorem download_csv_idempotent_witness :
    download_csv ("body") ("IMDB-Movie-Data.csv")
        [("IMDB-Movie-Data.csv", "old")]
      = ([("IMDB-Movie-Data.csv", "old")], 0) :=
  (download_csv_idempotent ("body") ("IMDB-Movie-Data.csv")
      [("IMDB-Movie-Data.csv", "old")]).1 (by decide)

/-- Fuel-indexed worker for `pyReplace` (the fuel is the length of the
scanned list, enough since each step consumes at least one character when
the pattern is nonempty). -/
def replaceFuel (pat rep : List Char) : ℕ → List Char → List Char
  | _, [] => []
  | 0, l => l
  | n + 1, c :: cs =>
      if pat.isPrefixOf (c :: cs) then
        rep ++ replaceFuel pat rep n ((c :: cs).drop pat.length)
      else c :: replaceFuel pat rep n cs

/-- Python `s.replace(pat, rep)`: replace every (non-overlapping)
occurrence of `pat` in `s` by `rep`. -/
def pyReplace (s pat rep : String) : String :=
  String.mk (replaceFuel pat.data rep.data s.data.length s.data)

/-- `fname.replace(".sql", ".csv")`: the CSV artifact name of a query. -/
def csvNameOf (fname : String) : String :=
  pyReplace fname (".sql") (".csv")

/-- `fname.replace(".sql", ".png")`: the image artifact name of a query. -/
def pngNameOf (fname : String) : String :=
  pyReplace fname (".sql") (".png")

/-- The Reporter's loop over its query catalogue.  Each item carries the
query's file name, its SQL text and the outcome of executing it against the
store: `some (csv, png)` is the serialized result set and rendered preview,
`none` is an engine error (`pd.read_sql` raising).  For every item the SQL
text is written first; a failing execution lets the exception propagate,
aborting the loop before that query's CSV and PNG are written. -/
def reporterLoop : Files → List (String × String × Option (String × String)) → Files
  | fs, [] => fs
  | fs, (fname, sqlText, res) :: rest =>
      match res with
      | none => write fs fname sqlText
      | some (csvC, pngC) =>
          reporterLoop
            (write (write (write fs fname sqlText) (csvNameOf fname) csvC)
              (pngNameOf fname) pngC) rest

/-- The file names an item list can ever write. -/
def reportNames (items : List (String × String × Option (String × String))) :
    List String :=
  items.flatMap (fun it => [it.1, csvNameOf it.1, pngNameOf it.1])

theorem reporterLoop_lookup_of_not_written (fs : Files)
    (items : List (String × String × Option (String × String)))
    (n : String) (h : n ∉ reportNames items) :
    lookup (reporterLoop fs items) n = lookup fs n := by
  induction items generalizing fs with
  | nil => rfl
  | cons it rest ih =>
      obtain ⟨f, s, res⟩ := it
      have hn : n ∉ [f, csvNameOf f, pngNameOf f] ∧ n ∉ reportNames rest := by
        constructor
        · intro hm
          exact h (by
            rw [reportNames, List.flatMap_cons]
            exact List.mem_append.2 (Or.inl hm))
        · intro hm
          exact h (by
            rw [reportNames, List.flatMap_cons]
            exact List.mem_append.2 (Or.inr hm))
      have hnf : n ≠ f := fun he => hn.1 (by rw [he]; exact List.mem_cons_self _ _)
      have hnc : n ≠ csvNameOf f := fun he => hn.1 (by
        rw [he]; exact List.mem_cons_of_mem _ (List.mem_cons_self _ _))
      have hnp : n ≠ pngNameOf f := fun he => hn.1 (by
        rw [he]
        exact List.mem_cons_of_mem _ (List.mem_cons_of_mem _ (List.mem_cons_self _ _)))
      cases res with
      | none =>
          rw [reporterLoop]
          exact lookup_write_ne _ _ _ _ hnf
      | some cp =>
          obtain ⟨c, p⟩ := cp
          rw [reporterLoop, ih _ hn.2, lookup_write_ne _ _ _ _ hnp,
            lookup_write_ne _ _ _ _ hnc, lookup_write_ne _ _ _ _ hnf]

theorem reporterLoop_preserves_present (fs : Files)
    (items : List (String × String × Option (String × String)))
    (n : String) (h : (lookup fs n).isSome) :
    (lookup (reporterLoop fs items) n).isSome := by
  induction items generalizing fs with
  | nil => exact h
  | cons it rest ih =>
      obtain ⟨f, s, res⟩ := it
      cases res with
      | none =>
          rw [reporterLoop]
          exact isSome_lookup_write _ _ _ _ h
      | some cp =>
          obtain ⟨c, p⟩ := cp
          rw [reporterLoop]
          exact ih _ (isSome_lookup_write _ _ _ _
            (isSome_lookup_write _ _ _ _ (isSome_lookup_write _ _ _ _ h)))

theorem reporterLoop_success_present (fs : Files)
    (items : List (String × String × Option (String × String)))
    (hsucc : ∀ x ∈ items, x.2.2.isSome) :
    ∀ x ∈ items,
      (lookup (reporterLoop fs items) x.1).isSome
        ∧ (lookup (reporterLoop fs items) (csvNameOf x.1)).isSome
        ∧ (lookup (reporterLoop fs items) (pngNameOf x.1)).isSome := by
  induction items generalizing fs with
  | nil => intro x hx; cases hx
  | cons it rest ih =>
      obtain ⟨f, s, res⟩ := it
      cases res with
      | none =>
          have := hsucc (f, s, none) (List.mem_cons_self _ _)
          simp at this
      | some cp =>
          obtain ⟨c, p⟩ := cp
          intro x hx
          rw [reporterLoop]
          rcases List.mem_cons.1 hx with he | hm
          · subst he
            refine ⟨?_, ?_, ?_⟩
            · exact reporterLoop_preserves_present _ _ _
                (isSome_lookup_write _ _ _ _ (isSome_lookup_write _ _ _ _
                  (by rw [lookup_write_self]; rfl)))
            · exact reporterLoop_preserves_present _ _ _
                (isSome_lookup_write _ _ _ _ (by rw [lookup_write_self]; rfl))
            · exact reporterLoop_preserves_present _ _ _
                (by rw [lookup_write_self]; rfl)
          · exact ih _ (fun y hy => hsucc y (List.mem_cons_of_mem _ hy)) x hm

theorem reporterLoop_append_success (fs : Files)
    (pre rest : List (String × String × Option (String × String)))
    (hsucc : ∀ x ∈ pre, x.2.2.isSome) :
    reporterLoop fs (pre ++ rest) = reporterLoop (reporterLoop fs pre) rest := by
  induction pre generalizing fs with
  | nil => rfl
  | cons it pre2 ih =>
      obtain ⟨f, s, res⟩ := it
      cases res with
      | none =>
          have := hsucc (f, s, none) (List.mem_cons_self _ _)
          simp at this
      | some cp =>
          obtain ⟨c, p⟩ := cp
          rw [List.cons_append, reporterLoop, reporterLoop]
          exact ih _ (fun y hy => hsucc y (List.mem_cons_of_mem _ hy))

/-- C10: the Reporter writes each query's `.sql` file before executing the
query.  If queries `pre` succeed and the next query fails, the run aborts
with all three artifacts of every query of `pre` on disk together with the
failing query's `.sql` file, while the failing query's `.csv` and `.png`
(absent beforehand, and not shadowed by an earlier query's artifact names)
are not written. -/
theorem reporter_sql_written_before_execution (fs : Files)
    (pre rest : List (String × String × Option (String × String)))
    (f0 s0 : String)
    (hsucc : ∀ x ∈ pre, x.2.2.isSome)
    (hcsv0 : lookup fs (csvNameOf f0) = none)
    (hpng0 : lookup fs (pngNameOf f0) = none)
    (hne1 : csvNameOf f0 ≠ f0) (hne2 : pngNameOf f0 ≠ f0)
    (hfresh1 : csvNameOf f0 ∉ reportNames pre)
    (hfresh2 : pngNameOf f0 ∉ reportNames pre) :
    (∀ x ∈ pre,
        (lookup (reporterLoop fs (pre ++ (f0, s0, none) :: rest)) x.1).isSome
          ∧ (lookup (reporterLoop fs (pre ++ (f0, s0, none) :: rest))
              (csvNameOf x.1)).isSome
          ∧ (lookup (reporterLoop fs (pre ++ (f0, s0, none) :: rest))
              (pngNameOf x.1)).isSome)
      ∧ lookup (reporterLoop fs (pre ++ (f0, s0, none) :: rest)) f0 = some s0
      ∧ lookup (reporterLoop fs (pre ++ (f0, s0, none) :: rest))
          (csvNameOf f0) = none
      ∧ lookup (reporterLoop fs (pre ++ (f0, s0, none) :: rest))
          (pngNameOf f0) = none := by
  have hsplit : reporterLoop fs (pre ++ (f0, s0, none) :: rest)
      = write (reporterLoop fs pre) f0 s0 := by
    rw [reporterLoop_append_success fs pre _ hsucc]
    rfl
  refine ⟨?_, ?_, ?_, ?_⟩
  · intro x hx
    have h3 := reporterLoop_success_present fs pre hsucc x hx
    rw [hsplit]
    exact ⟨isSome_lookup_write _ _ _ _ h3.1,
      isSome_lookup_write _ _ _ _ h3.2.1,
      isSome_lookup_write _ _ _ _ h3.2.2⟩
  · rw [hsplit, lookup_write_self]
  · rw [hsplit, lookup_write_ne _ _ _ _ hne1,
      reporterLoop_lookup_of_not_written _ _ _ hfresh1]
    exact hcsv0
  · rw [hsplit, lookup_write_ne _ _ _ _ hne2,
      reporterLoop_lookup_of_not_written _ _ _ hfresh2]
    exact hpng0

/-- Witness for C10: query 1 succeeds, query 2 fails, on an initially empty
output directory. -/
theorem reporter_sql_written_before_execution_witness :
    lookup (reporterLoop []
        [(("01_a.sql"), ("SELECT 1"), some (("c1"), ("p1"))),
         (("02_b.sql"), ("SELECT 2"), none)]) ("02_b.sql") = some ("SELECT 2")
      ∧ lookup (reporterLoop []
        [(("01_a.sql"), ("SELECT 1"), some (("c1"), ("p1"))),
         (("02_b.sql"), ("SELECT 2"), none)]) (csvNameOf ("02_b.sql")) = none := by
  have h := reporter_sql_written_before_execution []
    [(("01_a.sql"), ("SELECT 1"), some (("c1"), ("p1")))] []
    ("02_b.sql") ("SELECT 2")
    (by decide) (by decide) (by decide) (by decide) (by decide)
    (by decide) (by decide)
  exact ⟨h.2.1, h.2.2.1⟩

/-- pandas cell rendering for an integer column. -/
def intStr (i : ℤ) : String := toString i

/-- pandas cell rendering for a count column. -/
def natStr (n : ℕ) : String := toString n

/-- pandas cell rendering for a SQL REAL, modelled as the canonical rational
rendering (the determinism claim does not depend on the decimal format, only
on the rendering being a fixed function of the value). -/
def ratStr (q : ℚ) : String := toString q

/-- pandas renders a SQL NULL (NaN) as the empty cell. -/
def optRatStr : Option ℚ → String
  | none => ""
  | some q => ratStr q

/-- `df.to_csv(..., index=False)`: the header line followed by one
comma-joined line per result row. -/
def csvOfTable (header : String) (rows : List (List String)) : String :=
  header ++ "\n"
    ++ String.join (rows.map (fun r => String.intercalate (",") r ++ "\n"))

/-- The PNG preview: `df.head(min 15 len)` rendered as a grid with the
result's column labels.  The matplotlib rasterisation is modelled as a
deterministic encoding of the header and of the first 15 rows. -/
def pngOfTable (header : String) (rows : List (List String)) : String :=
  csvOfTable header (rows.take 15)

def rows01 (st : Store) : List (List String) :=
  (query01 st).map (fun r => [r.1, intStr r.2.1, ratStr r.2.2])

def rows02 (st : Store) : List (List String) :=
  (query02 st).map (fun r => [r.1, ratStr r.2])

def rows03 (st : Store) : List (List String) :=
  (query03 st).map (fun r => [r.1, natStr r.2])

def rows04 (st : Store) : List (List String) :=
  (query04 st).map (fun r => [intStr r.1, natStr r.2])

def rows05 (st : Store) : List (List String) :=
  (query05 st).map (fun r => [intStr r.1, r.2.1, ratStr r.2.2])

def rows06 (st : Store) : List (List String) :=
  (query06 st).map (fun r => [intStr r.1, r.2.1, optRatStr r.2.2])

def rows07 (st : Store) : List (List String) :=
  (query07 st).map (fun r => [r.1, ratStr r.2.1, natStr r.2.2])

def rows08 (st : Store) : List (List String) :=
  (query08 st).map (fun r => [r.1, natStr r.2])

def rows09 (st : Store) : List (List String) :=
  (query09 st).map (fun r => [r.1, optRatStr r.2])

def rows10 (st : Store) : List (List String) :=
  (query10 st).map (fun r => [intStr r.1, ratStr r.2.1, natStr r.2.2])

def rows11 (st : Store) : List (List String) :=
  (query11 st).map (fun r => [r.1, r.2.1, ratStr r.2.2])

/-- The Reporter's query catalogue in source order: file name, SQL text
(whitespace-normalised), and the artifacts its successful execution against
`st` produces. -/
def queryArtifacts (st : Store) :
    List (String × String × Option (String × String)) :=
  [(("01_top_10_highest_rated.sql"),
    ("SELECT Title, Year, Rating FROM movies ORDER BY Rating DESC LIMIT 10;"),
    some (csvOfTable ("Title,Year,Rating") (rows01 st),
      pngOfTable ("Title,Year,Rating") (rows01 st))),
   (("02_average_rating_per_genre.sql"),
    ("SELECT mg.Genre, ROUND(AVG(m.Rating), 2) AS avg_rating FROM movies m JOIN movie_genres mg ON mg.Rank = m.Rank GROUP BY mg.Genre ORDER BY avg_rating DESC;"),
    some (csvOfTable ("Genre,avg_rating") (rows02 st),
      pngOfTable ("Genre,avg_rating") (rows02 st))),
   (("03_movies_count_per_director.sql"),
    ("SELECT Director, COUNT(*) AS movie_count FROM movies GROUP BY Director ORDER BY movie_count DESC LIMIT 10;"),
    some (csvOfTable ("Director,movie_count") (rows03 st),
      pngOfTable ("Director,movie_count") (rows03 st))),
   (("04_movies_count_per_year.sql"),
    ("SELECT Year, COUNT(*) AS movie_count FROM movies GROUP BY Year ORDER BY Year DESC;"),
    some (csvOfTable ("Year,movie_count") (rows04 st),
      pngOfTable ("Year,movie_count") (rows04 st))),
   (("05_top_movie_per_year.sql"),
    ("SELECT Year, Title, Rating FROM (SELECT Year, Title, Rating, ROW_NUMBER() OVER (PARTITION BY Year ORDER BY Rating DESC) AS rn FROM movies) t WHERE rn = 1 ORDER BY Year DESC;"),
    some (csvOfTable ("Year,Title,Rating") (rows05 st),
      pngOfTable ("Year,Title,Rating") (rows05 st))),
   (("06_top_5_revenue_per_year.sql"),
    ("SELECT Year, Title, [Revenue (Millions)] AS Revenue FROM (SELECT Year, Title, [Revenue (Millions)], ROW_NUMBER() OVER (PARTITION BY Year ORDER BY [Revenue (Millions)] DESC) AS rn FROM movies WHERE [Revenue (Millions)] IS NOT NULL) t WHERE rn <= 5 ORDER BY Year DESC, rn;"),
    some (csvOfTable ("Year,Title,Revenue") (rows06 st),
      pngOfTable ("Year,Title,Revenue") (rows06 st))),
   (("07_avg_revenue_per_director.sql"),
    ("SELECT Director, ROUND(AVG([Revenue (Millions)]), 2) AS avg_revenue, COUNT(*) AS movies_count FROM movies WHERE [Revenue (Millions)] IS NOT NULL GROUP BY Director HAVING COUNT(*) >= 2 ORDER BY avg_revenue DESC LIMIT 10;"),
    some (csvOfTable ("Director,avg_revenue,movies_count") (rows07 st),
      pngOfTable ("Director,avg_revenue,movies_count") (rows07 st))),
   (("08_top_5_genres_by_count.sql"),
    ("SELECT mg.Genre, COUNT(*) AS movie_count FROM movie_genres mg GROUP BY mg.Genre ORDER BY movie_count DESC LIMIT 5;"),
    some (csvOfTable ("Genre,movie_count") (rows08 st),
      pngOfTable ("Genre,movie_count") (rows08 st))),
   (("09_avg_runtime_per_genre.sql"),
    ("SELECT mg.Genre, ROUND(AVG([Runtime (Minutes)]), 2) AS avg_runtime FROM movies m JOIN movie_genres mg ON mg.Rank = m.Rank GROUP BY mg.Genre ORDER BY avg_runtime DESC;"),
    some (csvOfTable ("Genre,avg_runtime") (rows09 st),
      pngOfTable ("Genre,avg_runtime") (rows09 st))),
   (("10_avg_rating_per_decade.sql"),
    ("SELECT (Year/10)*10 AS decade, ROUND(AVG(Rating), 2) AS avg_rating, COUNT(*) AS movie_count FROM movies GROUP BY decade ORDER BY decade;"),
    some (csvOfTable ("decade,avg_rating,movie_count") (rows10 st),
      pngOfTable ("decade,avg_rating,movie_count") (rows10 st))),
   (("11_top_3_movies_per_genre.sql"),
    ("SELECT Genre, Title, Rating FROM (SELECT mg.Genre, m.Title, m.Rating, ROW_NUMBER() OVER (PARTITION BY mg.Genre ORDER BY m.Rating DESC) AS rn FROM movie_genres mg JOIN movies m ON m.Rank = mg.Rank) t WHERE rn <= 3 ORDER BY Genre ASC, rn;"),
    some (csvOfTable ("Genre,Title,Rating") (rows11 st),
      pngOfTable ("Genre,Title,Rating") (rows11 st)))]

/-- `run_queries db_path output_dir`: run the eleven queries in catalogue
order against the store, writing per query its SQL text, CSV result and PNG
preview into the output directory. -/
def run_queries (st : Store) (fs : Files) : Files :=
  reporterLoop fs (queryArtifacts st)

/-- One full pipeline run over an already-acquired dataset:
`build_database` then `run_queries`, started from an arbitrary prior store
and output directory state. -/
def pipeline (input : List Movie) (s : Store × Files) : Store × Files :=
  (build_database input s.1, run_queries (build_database input s.1) s.2)

/-- The CSV artifact names of the eleven queries. -/
def csvFileNames : List String :=
  [("01_top_10_highest_rated.csv"), ("02_average_rating_per_genre.csv"),
   ("03_movies_count_per_director.csv"), ("04_movies_count_per_year.csv"),
   ("05_top_movie_per_year.csv"), ("06_top_5_revenue_per_year.csv"),
   ("07_avg_revenue_per_director.csv"), ("08_top_5_genres_by_count.csv"),
   ("09_avg_runtime_per_genre.csv"), ("10_avg_rating_per_decade.csv"),
   ("11_top_3_movies_per_genre.csv")]

/-- C1: the pipeline's CSV outputs are a function of the input dataset
alone.  Running `build_database` + `run_queries` a second time, on top of
whatever store and output files the first run left, reproduces the first
run's contents at every one of the eleven CSV paths byte for byte. -/
theorem pipeline_csv_deterministic (input : List Movie) (s : Store × Files)
    (name : String) (hname : name ∈ csvFileNames) :
    lookup (pipeline input (pipeline input s)).2 name
      = lookup (pipeline input s).2 name := by
  fin_cases hname <;> rfl

/-- Witness for C1 on a concrete run. -/
theorem pipeline_csv_deterministic_witness :
    lookup (pipeline [] (pipeline [] (emptyStore, []))).2
        ("01_top_10_highest_rated.csv")
      = lookup (pipeline [] (emptyStore, [])).2
        ("01_top_10_highest_rated.csv") :=
  pipeline_csv_deterministic [] (emptyStore, [])
    ("01_top_10_highest_rated.csv") (by decide)
